import Mathlib

/-
Verification of the GovInfo shillelagh adapter (src/shillelagh_govinfo/govinfo.py).

The development shallowly embeds the adapter's URI-classification logic
(`GovInfoAPI.supports`, `GovInfoAPI._supports_collections`) and its row
pipeline (`GovInfoAPI.get_rows`) as executable Lean functions, and proves
the behavioural properties stated about them.

Modelling boundary: `urllib.parse.urlparse` and `urllib.parse.parse_qs` are
standard-library collaborators; a classification call is modelled from their
output, a `ParsedUri` holding the network location, the raw path string and
the query-parameter mapping.  Path splitting (`str.split("/")`), lowercasing,
percent-decoding (`urllib.parse.unquote`), the regex
`\d{4}-\d{2}-\d{2}T\d{2}:\d{2}:\d{2}Z`, `datetime.strptime` with format
`%Y-%m-%dT%H:%M:%SZ` (per CPython's `_strptime` regexes plus the `datetime`
constructor's range checks), and `int()` on strings are embedded directly.
Character classes are modelled on ASCII (Python's `\d`, `str.lower` and
`int()` additionally accept some non-ASCII characters; every claim below uses
the same embedded functions on both sides, so this restriction is inert).
Python exceptions are modelled by the `PyError` type and `Except` results;
the generator body of `get_rows` is modelled as a trace: the list of rows
yielded before termination together with the terminating error, if any.
-/

namespace GovInfo

/-- The Python exceptions that the embedded code can raise. -/
inductive PyError where
  | indexError
  | keyError
  | valueError
  | unboundLocalError
  | programmingError
  | notImplementedError
deriving DecidableEq, Repr

/-- Models Python `s.split("/")`: splits at every slash, keeping empty parts,
so the empty string yields `[""]`. -/
def splitSlashAux : List Char → List Char → List String
  | [], acc => [String.mk acc.reverse]
  | c :: rest, acc =>
    if c = '/' then String.mk acc.reverse :: splitSlashAux rest []
    else splitSlashAux rest (c :: acc)

/-- `splitSlash s` models `s.split("/")` on the path string. -/
def splitSlash (s : String) : List String := splitSlashAux s.data []

/-- Models Python `str.lower()` (ASCII range). -/
def pyLower (s : String) : String := String.mk (s.data.map Char.toLower)

/-- Value of an ASCII hex digit, if any. -/
def hexDigitVal (c : Char) : Option Nat :=
  if '0' ≤ c ∧ c ≤ '9' then some (c.toNat - '0'.toNat)
  else if 'a' ≤ c ∧ c ≤ 'f' then some (c.toNat - 'a'.toNat + 10)
  else if 'A' ≤ c ∧ c ≤ 'F' then some (c.toNat - 'A'.toNat + 10)
  else none

/-- Models `urllib.parse.unquote`: a `%` followed by two hex digits becomes
the corresponding character, anything else is copied through.  (Multi-byte
UTF-8 reassembly of consecutive escapes above `%7F` is not modelled; both
sides of every statement below apply the same function.) -/
def unquoteAux : List Char → List Char
  | '%' :: a :: b :: rest =>
    match hexDigitVal a, hexDigitVal b with
    | some x, some y => Char.ofNat (16 * x + y) :: unquoteAux rest
    | _, _ => '%' :: unquoteAux (a :: b :: rest)
  | c :: rest => c :: unquoteAux rest
  | [] => []

/-- Models `urllib.parse.unquote` on a string. -/
def unquote (s : String) : String := String.mk (unquoteAux s.data)

/-- Models `DATE_PATTERN.fullmatch(s)` for
`DATE_PATTERN = re.compile(r"\d{4}-\d{2}-\d{2}T\d{2}:\d{2}:\d{2}Z")`:
the whole string is exactly four digits, dash, two digits, dash, two digits,
`T`, two digits, colon, two digits, colon, two digits, `Z`. -/
def dateFullmatch (s : String) : Bool :=
  match s.data with
  | [y1, y2, y3, y4, d1, mo1, mo2, d2, da1, da2, t, h1, h2, c1, mi1, mi2, c2, se1, se2, z] =>
    y1.isDigit && y2.isDigit && y3.isDigit && y4.isDigit && d1 == '-' &&
    mo1.isDigit && mo2.isDigit && d2 == '-' && da1.isDigit && da2.isDigit &&
    t == 'T' && h1.isDigit && h2.isDigit && c1 == ':' && mi1.isDigit && mi2.isDigit &&
    c2 == ':' && se1.isDigit && se2.isDigit && z == 'Z'
  | _ => false

/-- `COLLECTIONS = ("bills",)` from the source module. -/
def COLLECTIONS : List String := ["bills"]

/-- The output of `urllib.parse.parse_qs`: a mapping from parameter name to
the list of its values. -/
def QueryString := List (String × List String)

/-- Models Python `key in query_string` on the `parse_qs` mapping. -/
def hasKey (qs : QueryString) (key : String) : Bool :=
  qs.any (fun kv => kv.1 == key)

/-- Embeds `GovInfoAPI._supports_collections(split_path, query_string)`:
reject paths with fewer than 4 split elements; otherwise require a supported
collection (lowercased), a start date (URL-decoded) fully matching the date
pattern, an end date likewise when the split path has exactly 5 elements,
and the presence of the `offset` and `pageSize` query parameters. -/
def supports_collections (split_path : List String) (query_string : QueryString) : Bool :=
  if split_path.length < 4 then
    false
  else
    let collection := split_path.getD 2 ""
    let start_date := unquote (split_path.getD 3 "")
    let supported_collection := COLLECTIONS.contains (pyLower collection)
    let valid_start_date := dateFullmatch start_date
    let valid_end_date :=
      if split_path.length == 5 then dateFullmatch (unquote (split_path.getD 4 ""))
      else true
    supported_collection && valid_start_date && valid_end_date &&
      hasKey query_string "offset" && hasKey query_string "pageSize"

/-- The output of `urllib.parse.urlparse` plus `parse_qs`, the boundary at
which `GovInfoAPI.supports` inspects a URI. -/
structure ParsedUri where
  netloc : String
  path : String
  query : QueryString

/-- Embeds `GovInfoAPI.supports(uri)`: split the path on `/`; indexing the
split path at 1 raises `IndexError` when the path is empty; dispatch on the
endpoint segment (`collections` runs the collections rule; `packages`,
`published` and `related` raise `NotImplementedError`; anything else raises
`ProgrammingError` — the `supports_endpoint` value is computed before the
final conjunction, so those raises happen first); finally accept only if the
network location is `api.govinfo.gov`, the endpoint rule accepted, and an
`api_key` query parameter is present.  The unused `fast` flag is omitted. -/
def supports (parsed : ParsedUri) : Except PyError Bool :=
  let query_string := parsed.query
  let split_path := splitSlash parsed.path
  match split_path[1]? with
  | none => .error .indexError
  | some endpoint =>
    if endpoint == "collections" then
      .ok (parsed.netloc == "api.govinfo.gov" &&
        supports_collections split_path query_string &&
        hasKey query_string "api_key")
    else if endpoint == "packages" then .error .notImplementedError
    else if endpoint == "published" then .error .notImplementedError
    else if endpoint == "related" then .error .notImplementedError
    else .error .programmingError

/-- A naive datetime value as produced by `datetime.strptime`. -/
structure PyDateTime where
  year : Nat
  month : Nat
  day : Nat
  hour : Nat
  minute : Nat
  second : Nat
deriving DecidableEq, Repr

/-- Value of an ASCII decimal digit, if any. -/
def digitVal (c : Char) : Option Nat :=
  if c.isDigit then some (c.toNat - '0'.toNat) else none

/-- One numeric field of the `_strptime` regex with a two-digit alternative
set `ok2` and a one-digit alternative set `ok1`.  Every field in the format
`%Y-%m-%dT%H:%M:%SZ` is followed by a non-digit literal, so when two digits
are available the two-digit alternatives are forced (backtracking to one
digit would leave a digit where the literal must match). -/
def parseField (ok2 ok1 : Nat → Bool) : List Char → Option (Nat × List Char)
  | c1 :: c2 :: rest =>
    match digitVal c1, digitVal c2 with
    | some v1, some v2 =>
      if ok2 (10 * v1 + v2) then some (10 * v1 + v2, rest) else none
    | some v1, none => if ok1 v1 then some (v1, c2 :: rest) else none
    | none, _ => none
  | [c1] =>
    match digitVal c1 with
    | some v1 => if ok1 v1 then some (v1, []) else none
    | none => none
  | [] => none

/-- A literal character of the format string. -/
def parseLit (c : Char) : List Char → Option (List Char)
  | x :: rest => if x == c then some rest else none
  | [] => none

/-- `%Y`: exactly four digits. -/
def parseYear : List Char → Option (Nat × List Char)
  | a :: b :: c :: d :: rest =>
    match digitVal a, digitVal b, digitVal c, digitVal d with
    | some w, some x, some y, some z => some (1000 * w + 100 * x + 10 * y + z, rest)
    | _, _, _, _ => none
  | _ => none

/-- Gregorian leap year, as used by `datetime`. -/
def leapYear (y : Nat) : Bool :=
  y % 4 == 0 && (y % 100 != 0 || y % 400 == 0)

/-- Days in a month, as validated by the `datetime` constructor. -/
def daysInMonth (y m : Nat) : Nat :=
  if m == 2 then (if leapYear y then 29 else 28)
  else if m == 4 || m == 6 || m == 9 || m == 11 then 30
  else 31

/-- Embeds `datetime.strptime(s, "%Y-%m-%dT%H:%M:%SZ")`, returning `none`
where CPython raises `ValueError`.  The field ranges follow `_strptime`'s
regexes (`%m`: `1[0-2]|0[1-9]|[1-9]`, `%d`: `3[01]|[12]\d|0[1-9]|[1-9]`,
`%H`: `2[0-3]|[0-1]\d|\d`, `%M`: `[0-5]\d|\d`, `%S`: `6[0-1]|[0-5]\d|\d`),
the whole string must be consumed (`unconverted data remains`), and the
`datetime` constructor then requires a positive year, a day within the
month, and a second below 60. -/
def strptimeZ (s : String) : Option PyDateTime := do
  let (y, r1) ← parseYear s.data
  let r2 ← parseLit '-' r1
  let (mo, r3) ← parseField (fun v => 1 ≤ v && v ≤ 12) (fun v => 1 ≤ v && v ≤ 9) r2
  let r4 ← parseLit '-' r3
  let (da, r5) ← parseField (fun v => 1 ≤ v && v ≤ 31) (fun v => 1 ≤ v && v ≤ 9) r4
  let r6 ← parseLit 'T' r5
  let (h, r7) ← parseField (fun v => v ≤ 23) (fun v => v ≤ 9) r6
  let r8 ← parseLit ':' r7
  let (mi, r9) ← parseField (fun v => v ≤ 59) (fun v => v ≤ 9) r8
  let r10 ← parseLit ':' r9
  let (se, r11) ← parseField (fun v => v ≤ 61) (fun v => v ≤ 9) r10
  let r12 ← parseLit 'Z' r11
  match r12 with
  | [] =>
    if 1 ≤ y && da ≤ daysInMonth y mo && se ≤ 59 then
      some ⟨y, mo, da, h, mi, se⟩
    else none
  | _ => none

/-- Python whitespace stripped by `int()` (ASCII range). -/
def isPyWs (c : Char) : Bool :=
  c == ' ' || c == '\t' || c == '\n' || c == '\r' || c == '\x0b' || c == '\x0c'

/-- Decimal value of a nonempty all-digit character list. -/
def digitsValAux : List Char → Nat → Option Nat
  | [], acc => some acc
  | c :: rest, acc =>
    match digitVal c with
    | some v => digitsValAux rest (10 * acc + v)
    | none => none

/-- Decimal value of a character list, requiring at least one digit. -/
def digitsVal : List Char → Option Nat
  | [] => none
  | c :: rest => digitsValAux (c :: rest) 0

/-- Embeds `int()` applied to a string (as in `int(record["congress"])`):
strip surrounding whitespace, allow one sign, then decimal digits; `none`
where CPython raises `ValueError`.  (Underscore digit grouping is not
modelled; no claim exercises it.) -/
def pyInt (s : String) : Option Int :=
  let cs := ((s.data.dropWhile isPyWs).reverse.dropWhile isPyWs).reverse
  match cs with
  | '+' :: rest => (digitsVal rest).map (fun n => (n : Int))
  | '-' :: rest => (digitsVal rest).map (fun n => -(n : Int))
  | rest => (digitsVal rest).map (fun n => (n : Int))

/-- One element of the response's `packages` array, with the fields read by
`get_rows`.  `congress` is carried as the string payload sent by the API
(the test fixtures use `"118"`); `int()` coerces it. -/
structure Record where
  packageId : String
  lastModified : String
  packageLink : String
  docClass : String
  title : String
  congress : String
  dateIssued : String
deriving DecidableEq, Repr, Inhabited

/-- One yielded row, keyed as in the dictionary literal of `get_rows`. -/
structure Row where
  package_id : String
  last_modified : PyDateTime
  package_link : String
  doc_class : String
  title : String
  congress : Int
  date_issued : String
deriving DecidableEq, Repr

/-- The dictionary literal yielded per record in `get_rows`.  Python
evaluates the values in order, so the `strptime` of `lastModified` raises
before the `int()` of `congress` can. -/
def mapRecord (r : Record) : Except PyError Row :=
  match strptimeZ r.lastModified with
  | none => .error .valueError
  | some dt =>
    match pyInt r.congress with
    | none => .error .valueError
    | some c =>
      .ok { package_id := r.packageId, last_modified := dt,
            package_link := r.packageLink, doc_class := r.docClass,
            title := r.title, congress := c, date_issued := r.dateIssued }

/-- Trace of the generator loop `for record in payload["packages"]: yield …`:
the rows yielded in order, and the error that terminated the loop, if any.
Rows produced before a failing record have already been yielded when the
error is raised. -/
def runRows : List Record → List Row × Option PyError
  | [] => ([], none)
  | r :: rs =>
    match mapRecord r with
    | .error e => ([], some e)
    | .ok row =>
      let rest := runRows rs
      (row :: rest.1, rest.2)

/-- The parsed JSON response body: the `packages` key may be absent. -/
structure Payload where
  packages : Option (List Record)
deriving DecidableEq, Repr

/-- Trace of consuming the generator on a payload: `payload["packages"]`
raises `KeyError` when the key is absent, before any row is yielded. -/
def fetchRows (payload : Payload) : List Row × Option PyError :=
  match payload.packages with
  | none => ([], some .keyError)
  | some recs => runRows recs

/-- Shillelagh filter objects as passed in `bounds`.  The adapter never
inspects them; they are modelled by their data. -/
inductive Filter where
  | range (lo hi : Option String) (includeLo includeHi : Bool)
  | equal (value : String)
  | isNull
  | isNotNull
deriving DecidableEq, Repr

/-- A requested sort direction, as passed in `order`. -/
inductive RequestedOrder where
  | ascending
  | descending
deriving DecidableEq, Repr

/-- Which collaborator performs the HTTP GET in `get_rows`: the module-level
`requests.get`, or the `requests_cache.CachedSession` stored on the instance
at construction. -/
inductive Transport where
  | plainRequests
  | cachedSession
deriving DecidableEq, Repr

/-- The fields of an adapter instance read by `get_rows`, as set in
`GovInfoAPI.__init__`. -/
structure AdapterState where
  url : String
  api_key : String
  endpoint : String
  collection : String
  start_date : String
  end_date : Option String
  offset : String
  page_size : String
deriving DecidableEq, Repr

/-- The remote request issued by `get_rows`: its URL, its query parameters,
and the transport that performs it. -/
structure Request where
  url : String
  params : List (String × String)
  transport : Transport
deriving DecidableEq, Repr

/-- Embeds the request construction in `get_rows`: the local `url` is only
assigned under `if self.endpoint == "collections"`, so any other endpoint
raises `UnboundLocalError` at the `requests.get(url, params)` line; the call
goes through the module-level `requests.get`, not `self._session`. -/
def buildRequest (s : AdapterState) (bounds : List (String × Filter))
    (order : List (String × RequestedOrder)) : Except PyError Request :=
  let base_url := s.url ++ "/" ++ s.endpoint
  if s.endpoint == "collections" then
    let url := base_url ++ "/" ++ s.collection ++ "/" ++ s.start_date ++ "/" ++
      (match s.end_date with | some e => e | none => "")
    .ok { url := url,
          params := [("offset", s.offset), ("pageSize", s.page_size), ("api_key", s.api_key)],
          transport := .plainRequests }
  else
    .error .unboundLocalError

/-- Embeds `get_rows(bounds, order)` given the payload the transport returns
for the built request: the request issued, and the trace of yielded rows. -/
def get_rows (s : AdapterState) (bounds : List (String × Filter))
    (order : List (String × RequestedOrder)) (payload : Payload) :
    Except PyError (Request × (List Row × Option PyError)) :=
  match buildRequest s bounds order with
  | .error e => .error e
  | .ok req => .ok (req, fetchRows payload)

end GovInfo

deriving instance DecidableEq for Except

namespace GovInfo

/-- Unfolds the `collections` rule into the conjunction of its checks; the
end-date check only applies when the split path has exactly five elements. -/
lemma supports_collections_eq_true_iff (sp : List String) (q : QueryString) :
    supports_collections sp q = true ↔
      (4 ≤ sp.length ∧
       pyLower (sp.getD 2 "") ∈ COLLECTIONS ∧
       dateFullmatch (unquote (sp.getD 3 "")) = true ∧
       (sp.length = 5 → dateFullmatch (unquote (sp.getD 4 "")) = true) ∧
       hasKey q "offset" = true ∧ hasKey q "pageSize" = true) := by
  unfold supports_collections
  by_cases h4 : sp.length < 4
  · simp only [if_pos h4]
    constructor
    · intro hh; exact absurd hh (by simp)
    · rintro ⟨hle, -⟩; exact absurd hle (by omega)
  · have h4' : 4 ≤ sp.length := by omega
    simp only [if_neg h4]
    by_cases h5 : sp.length = 5
    · simp [h5, Bool.and_eq_true, h4']
      tauto
    · simp [h5, Bool.and_eq_true, h4']
      tauto

/-- On a URI whose endpoint segment is `collections`, `supports` reaches its
final conjunction. -/
lemma supports_of_collections (p : ParsedUri)
    (h : (splitSlash p.path)[1]? = some "collections") :
    supports p = Except.ok
      (p.netloc == "api.govinfo.gov" &&
        supports_collections (splitSlash p.path) p.query &&
        hasKey p.query "api_key") := by
  simp only [supports]
  rw [h]
  rfl

/-- Acceptance of a collections URI, as the conjunction of the checks the
source actually performs. -/
lemma accept_iff_of_collections (p : ParsedUri)
    (h : (splitSlash p.path)[1]? = some "collections") :
    supports p = Except.ok true ↔
      (p.netloc = "api.govinfo.gov" ∧
       4 ≤ (splitSlash p.path).length ∧
       pyLower ((splitSlash p.path).getD 2 "") ∈ COLLECTIONS ∧
       dateFullmatch (unquote ((splitSlash p.path).getD 3 "")) = true ∧
       ((splitSlash p.path).length = 5 →
         dateFullmatch (unquote ((splitSlash p.path).getD 4 "")) = true) ∧
       hasKey p.query "offset" = true ∧
       hasKey p.query "pageSize" = true ∧
       hasKey p.query "api_key" = true) := by
  rw [supports_of_collections p h]
  simp only [Except.ok.injEq, Bool.and_eq_true, beq_iff_eq,
    supports_collections_eq_true_iff]
  tauto

/-- `supports` dispatches on the endpoint segment of the split path. -/
lemma supports_of_endpoint (p : ParsedUri) (ep : String)
    (h : (splitSlash p.path)[1]? = some ep) :
    supports p =
      (if ep == "collections" then
        Except.ok (p.netloc == "api.govinfo.gov" &&
          supports_collections (splitSlash p.path) p.query &&
          hasKey p.query "api_key")
      else if ep == "packages" then Except.error PyError.notImplementedError
      else if ep == "published" then Except.error PyError.notImplementedError
      else if ep == "related" then Except.error PyError.notImplementedError
      else Except.error PyError.programmingError) := by
  simp only [supports]
  rw [h]

/-- C1 fails as stated: a collections URI whose split path has six elements
is accepted although an end-date segment (the fifth split element) is
present and, URL-decoded, does not match the date pattern — the code only
validates that segment when the split path has exactly five elements. -/
theorem c1_counterexample :
    supports ⟨"api.govinfo.gov", "/collections/bills/2018-01-28T20:18:10Z/notadate/x",
      [("offset", ["0"]), ("pageSize", ["10"]), ("api_key", ["k"])]⟩ = Except.ok true ∧
    5 ≤ (splitSlash "/collections/bills/2018-01-28T20:18:10Z/notadate/x").length ∧
    dateFullmatch (unquote
      ((splitSlash "/collections/bills/2018-01-28T20:18:10Z/notadate/x").getD 4 "")) = false := by
  decide

/-- C1 (amended): for every URI whose split path's second element is
`collections`, classification returns true iff the authority is
`api.govinfo.gov`, the split path has at least 4 elements, the lowercased
collection segment is a supported collection, the URL-decoded start-date
segment fully matches the date pattern, the URL-decoded end-date segment
fully matches it whenever the split path has exactly 5 elements (with 6 or
more elements the extra segments are not validated), and the query mapping
contains `offset`, `pageSize` and `api_key`. -/
theorem c1_amended_accept_iff (p : ParsedUri)
    (h : (splitSlash p.path)[1]? = some "collections") :
    supports p = Except.ok true ↔
      (p.netloc = "api.govinfo.gov" ∧
       4 ≤ (splitSlash p.path).length ∧
       pyLower ((splitSlash p.path).getD 2 "") ∈ COLLECTIONS ∧
       dateFullmatch (unquote ((splitSlash p.path).getD 3 "")) = true ∧
       ((splitSlash p.path).length = 5 →
         dateFullmatch (unquote ((splitSlash p.path).getD 4 "")) = true) ∧
       hasKey p.query "offset" = true ∧
       hasKey p.query "pageSize" = true ∧
       hasKey p.query "api_key" = true) :=
  accept_iff_of_collections p h

/-- Witness for C1 at the accepted scenario URI (uppercase collection,
percent-encoded colons). -/
theorem c1_witness :
    supports ⟨"api.govinfo.gov", "/collections/BILLS/2018-01-28T20%3A18%3A10Z",
      [("offset", ["0"]), ("pageSize", ["1000"]), ("api_key", ["fake"])]⟩ = Except.ok true :=
  (c1_amended_accept_iff ⟨"api.govinfo.gov", "/collections/BILLS/2018-01-28T20%3A18%3A10Z",
      [("offset", ["0"]), ("pageSize", ["1000"]), ("api_key", ["fake"])]⟩ (by decide)).mpr
    (by exact ⟨rfl, by decide, by decide, by decide, by decide, by decide, by decide, by decide⟩)

/-- C4 fails as stated: with a six-element split path, a fifth path segment
is present and does not match the date pattern, yet the URI is accepted. -/
theorem c4_counterexample :
    supports ⟨"api.govinfo.gov", "/collections/BILLS/2020-01-01T00%3A00%3A00Z/nope/extra",
      [("offset", ["5"]), ("pageSize", ["20"]), ("api_key", ["kk"])]⟩ = Except.ok true ∧
    (splitSlash "/collections/BILLS/2020-01-01T00%3A00%3A00Z/nope/extra")[4]? = some "nope" ∧
    dateFullmatch (unquote "nope") = false := by
  decide

/-- C4 (amended): when the split path has exactly five elements, acceptance
forces the URL-decoded fifth element to match the date pattern (with six or
more elements it is not validated); and for a four-element split path the
absence of an end date does not affect acceptance: it is accepted exactly
when the remaining conditions hold. -/
theorem c4_amended (p : ParsedUri)
    (h : (splitSlash p.path)[1]? = some "collections") :
    ((splitSlash p.path).length = 5 → supports p = Except.ok true →
      dateFullmatch (unquote ((splitSlash p.path).getD 4 "")) = true) ∧
    ((splitSlash p.path).length = 4 →
      (supports p = Except.ok true ↔
        (p.netloc = "api.govinfo.gov" ∧
         pyLower ((splitSlash p.path).getD 2 "") ∈ COLLECTIONS ∧
         dateFullmatch (unquote ((splitSlash p.path).getD 3 "")) = true ∧
         hasKey p.query "offset" = true ∧
         hasKey p.query "pageSize" = true ∧
         hasKey p.query "api_key" = true))) := by
  have hiff := accept_iff_of_collections p h
  constructor
  · intro h5 hacc
    exact ((hiff.mp hacc).2.2.2.2.1) h5
  · intro h4
    rw [hiff]
    constructor
    · rintro ⟨hn, -, hc, hd, -, ho, hp2, hk⟩
      exact ⟨hn, hc, hd, ho, hp2, hk⟩
    · rintro ⟨hn, hc, hd, ho, hp2, hk⟩
      exact ⟨hn, by omega, hc, hd, by intro h5; omega, ho, hp2, hk⟩

/-- Witness for C4 at a four-segment URI with a mixed-case collection. -/
theorem c4_witness :
    supports ⟨"api.govinfo.gov", "/collections/bIlLs/2021-06-15T12:00:00Z",
      [("offset", ["2"]), ("pageSize", ["50"]), ("api_key", ["q"])]⟩ = Except.ok true :=
  (((c4_amended ⟨"api.govinfo.gov", "/collections/bIlLs/2021-06-15T12:00:00Z",
      [("offset", ["2"]), ("pageSize", ["50"]), ("api_key", ["q"])]⟩ (by decide)).2
    (by decide)).mpr (by exact ⟨rfl, by decide, by decide, by decide, by decide, by decide⟩))

/-- C7 fails as stated: a URI missing all three required query parameters
whose first path segment is `packages` makes classification raise
`NotImplementedError` instead of returning false. -/
theorem c7_counterexample :
    supports ⟨"api.govinfo.gov", "/packages/BILLS-118hr796ih/summary", []⟩ =
      Except.error PyError.notImplementedError ∧
    supports ⟨"api.govinfo.gov", "/packages/BILLS-118hr796ih/summary", []⟩ ≠
      Except.ok false := by
  decide

/-- C7 (amended): for every URI whose endpoint segment is `collections` and
whose query mapping is missing at least one of `api_key`, `offset`,
`pageSize`, classification returns false. -/
theorem c7_amended (p : ParsedUri)
    (h : (splitSlash p.path)[1]? = some "collections")
    (hmiss : hasKey p.query "api_key" = false ∨ hasKey p.query "offset" = false ∨
      hasKey p.query "pageSize" = false) :
    supports p = Except.ok false := by
  rw [supports_of_collections p h]
  rcases hmiss with hk | ho | hpg
  · simp [hk]
  · have hsc : supports_collections (splitSlash p.path) p.query = false := by
      unfold supports_collections
      by_cases h4 : (splitSlash p.path).length < 4
      · simp [h4]
      · simp [h4, ho]
    simp [hsc]
  · have hsc : supports_collections (splitSlash p.path) p.query = false := by
      unfold supports_collections
      by_cases h4 : (splitSlash p.path).length < 4
      · simp [h4]
      · simp [h4, hpg]
    simp [hsc]

/-- Witness for C7: a collections URI missing `api_key` and `pageSize`. -/
theorem c7_witness :
    supports ⟨"api.govinfo.gov", "/collections/bills/2020-01-01T00:00:00Z",
      [("offset", ["0"])]⟩ = Except.ok false :=
  c7_amended ⟨"api.govinfo.gov", "/collections/bills/2020-01-01T00:00:00Z",
      [("offset", ["0"])]⟩ (by decide) (Or.inl (by decide))

/-- C5: for every URI whose endpoint segment exists, classification raises
iff that segment is not one of the four known endpoint names or is one of
`packages`, `published`, `related`; the former raise the configuration
error, the latter always raise the unimplemented-endpoint error, and a
`collections` segment always yields a plain boolean. -/
theorem c5_classification_errors (p : ParsedUri) (ep : String)
    (h : (splitSlash p.path)[1]? = some ep) :
    ((∃ e, supports p = Except.error e) ↔
      (ep ∉ (["collections", "packages", "published", "related"] : List String) ∨
        ep ∈ (["packages", "published", "related"] : List String))) ∧
    (ep ∉ (["collections", "packages", "published", "related"] : List String) →
      supports p = Except.error PyError.programmingError) ∧
    (ep ∈ (["packages", "published", "related"] : List String) →
      supports p = Except.error PyError.notImplementedError) ∧
    (ep = "collections" → ∃ b, supports p = Except.ok b) := by
  rw [supports_of_endpoint p ep h]
  by_cases h1 : ep = "collections"
  · subst h1
    refine ⟨?_, ?_, ?_, ?_⟩
    · constructor
      · rintro ⟨e, he⟩
        simp at he
      · rintro (hnot | hmem)
        · exact absurd (by decide) hnot
        · exact absurd hmem (by decide)
    · intro hnot; exact absurd (by decide) hnot
    · intro hmem; exact absurd hmem (by decide)
    · intro _; exact ⟨_, rfl⟩
  · by_cases h2 : ep = "packages"
    · subst h2
      refine ⟨?_, ?_, ?_, ?_⟩
      · simp
      · intro hnot; exact absurd (by decide) hnot
      · intro _; simp
      · intro hc; exact absurd hc (by decide)
    · by_cases h3 : ep = "published"
      · subst h3
        refine ⟨?_, ?_, ?_, ?_⟩
        · simp
        · intro hnot; exact absurd (by decide) hnot
        · intro _; simp
        · intro hc; exact absurd hc (by decide)
      · by_cases h4 : ep = "related"
        · subst h4
          refine ⟨?_, ?_, ?_, ?_⟩
          · simp
          · intro hnot; exact absurd (by decide) hnot
          · intro _; simp
          · intro hc; exact absurd hc (by decide)
        · have hne1 : (ep == "collections") = false := by simp [h1]
          have hne2 : (ep == "packages") = false := by simp [h2]
          have hne3 : (ep == "published") = false := by simp [h3]
          have hne4 : (ep == "related") = false := by simp [h4]
          rw [hne1, hne2, hne3, hne4]
          refine ⟨?_, ?_, ?_, ?_⟩
          · simp
            simp [h1, h2, h3, h4]
          · intro _; simp
          · intro hmem
            simp at hmem
            rcases hmem with h | h | h <;> simp_all
          · intro hc; exact absurd hc h1

/-- Witness for C5 at the ignored `search` endpoint. -/
theorem c5_witness :
    supports ⟨"api.govinfo.gov", "/search", [("api_key", ["k"])]⟩ =
      Except.error PyError.programmingError :=
  (c5_classification_errors ⟨"api.govinfo.gov", "/search", [("api_key", ["k"])]⟩
    "search" (by decide)).2.1 (by decide)

/-- C10: for every URI with an empty path, classification raises the
out-of-bounds indexing error when extracting the endpoint segment. -/
theorem c10_empty_path_index_error (p : ParsedUri) (h : p.path = "") :
    supports p = Except.error PyError.indexError := by
  have hsp : splitSlash p.path = [""] := by rw [h]; rfl
  simp only [supports, hsp]
  rfl

/-- Witness for C10. -/
theorem c10_witness :
    supports ⟨"api.govinfo.gov", "", []⟩ = Except.error PyError.indexError :=
  c10_empty_path_index_error ⟨"api.govinfo.gov", "", []⟩ rfl

/-- C2 fails as stated: with a valid record before an invalid one, the
generator has already yielded the first row when the parse error occurs, so
a row of the response does reach the host. -/
theorem c2_counterexample :
    (runRows
      [⟨"BILLS-118hr796ih", "2023-03-01T10:29:21Z",
        "https://api.govinfo.gov/packages/BILLS-118hr796ih/summary", "hr",
        "Supply Chain Mapping and Monitoring Act", "118", "2023-02-02"⟩,
       ⟨"BILLS-118hr797ih", "2023-03-01 10:29:21", "link", "hr",
        "Another Act", "118", "2023-02-03"⟩]).2 = some PyError.valueError ∧
    (runRows
      [⟨"BILLS-118hr796ih", "2023-03-01T10:29:21Z",
        "https://api.govinfo.gov/packages/BILLS-118hr796ih/summary", "hr",
        "Supply Chain Mapping and Monitoring Act", "118", "2023-02-02"⟩,
       ⟨"BILLS-118hr797ih", "2023-03-01 10:29:21", "link", "hr",
        "Another Act", "118", "2023-02-03"⟩]).1 ≠ [] := by
  decide

/-- C2 (amended): when the record at position `i` has an unparsable
`lastModified` and every earlier record maps cleanly, the fetch fails with
the parse error at that record: exactly the rows of the records before it
have been yielded, and no row at or after it is ever produced. -/
theorem c2_amended (recs : List Record) (i : Nat)
    (hi : i < recs.length)
    (hbad : strptimeZ ((recs.getD i default).lastModified) = none)
    (hok : ∀ j, j < i → (mapRecord (recs.getD j default)).isOk = true) :
    runRows recs =
      ((recs.take i).filterMap (fun r => (mapRecord r).toOption),
        some PyError.valueError) := by
  induction recs generalizing i with
  | nil => simp at hi
  | cons a as ih =>
    cases i with
    | zero =>
      have hma : mapRecord a = Except.error PyError.valueError := by
        unfold mapRecord
        rw [show strptimeZ a.lastModified = none from by simpa using hbad]
      simp [runRows, hma]
    | succ n =>
      have h0 : (mapRecord a).isOk = true := by
        simpa using hok 0 (Nat.succ_pos n)
      obtain ⟨row, hrow⟩ : ∃ row, mapRecord a = Except.ok row := by
        cases hma : mapRecord a with
        | error e => rw [hma] at h0; simp [Except.isOk, Except.toBool] at h0
        | ok r0 => exact ⟨r0, rfl⟩
      have hrec := ih n (by simpa using hi) (by simpa using hbad)
        (fun j hj => by simpa using hok (j + 1) (by omega))
      simp [runRows, hrow, hrec, List.filterMap_cons, Except.toOption]

/-- Witness for C2: one good record, then one with a bad date. -/
theorem c2_witness :
    runRows
      [⟨"BILLS-118hr796ih", "2023-03-01T10:29:21Z",
        "https://api.govinfo.gov/packages/BILLS-118hr796ih/summary", "hr",
        "Supply Chain Mapping and Monitoring Act", "118", "2023-02-02"⟩,
       ⟨"BILLS-118hr798ih", "bad-date", "link", "hr",
        "A Third Act", "118", "2023-02-04"⟩] =
      ((([⟨"BILLS-118hr796ih", "2023-03-01T10:29:21Z",
          "https://api.govinfo.gov/packages/BILLS-118hr796ih/summary", "hr",
          "Supply Chain Mapping and Monitoring Act", "118", "2023-02-02"⟩,
         ⟨"BILLS-118hr798ih", "bad-date", "link", "hr",
          "A Third Act", "118", "2023-02-04"⟩] : List Record).take 1).filterMap
        (fun r => (mapRecord r).toOption), some PyError.valueError) :=
  c2_amended _ 1 (by decide) (by decide) (by decide)

/-- C3 fails as stated: a payload without the `packages` key raises
`KeyError` rather than yielding an empty, error-free sequence. -/
theorem c3_counterexample :
    (fetchRows ⟨none⟩).2 = some PyError.keyError ∧ (fetchRows ⟨none⟩).2 ≠ none := by
  decide

/-- C3 (amended): an empty `packages` array yields zero rows and no error;
an absent `packages` key yields zero rows and a `KeyError`. -/
theorem c3_amended :
    fetchRows ⟨some []⟩ = ([], none) ∧
    fetchRows ⟨none⟩ = ([], some PyError.keyError) := by
  decide

/-- C6: the bounds and order arguments influence neither the remote request
(whose URL and `offset`, `pageSize`, `api_key` parameters come verbatim
from instance state) nor the rows produced from a given payload. -/
theorem c6_bounds_order_invariant (s : AdapterState)
    (b1 b2 : List (String × Filter)) (o1 o2 : List (String × RequestedOrder))
    (payload : Payload) (h : s.endpoint = "collections") :
    get_rows s b1 o1 payload = get_rows s b2 o2 payload ∧
    ∃ req rows, get_rows s b1 o1 payload = Except.ok (req, rows) ∧
      req.url = s.url ++ "/" ++ s.endpoint ++ "/" ++ s.collection ++ "/" ++
        s.start_date ++ "/" ++ (match s.end_date with | some e => e | none => "") ∧
      req.params = [("offset", s.offset), ("pageSize", s.page_size), ("api_key", s.api_key)] ∧
      rows = fetchRows payload := by
  refine ⟨rfl, ?_⟩
  refine ⟨⟨s.url ++ "/" ++ s.endpoint ++ "/" ++ s.collection ++ "/" ++ s.start_date ++ "/" ++
      (match s.end_date with | some e => e | none => ""),
      [("offset", s.offset), ("pageSize", s.page_size), ("api_key", s.api_key)],
      Transport.plainRequests⟩, fetchRows payload, ?_, rfl, rfl, rfl⟩
  simp [get_rows, buildRequest, h]

/-- Witness for C6: a range filter and a requested order versus none. -/
theorem c6_witness :
    get_rows ⟨"https://api.govinfo.gov", "k", "collections", "bills",
        "2023-02-28T20:18:10Z", some "2023-03-01T20:18:10Z", "0", "1"⟩
      [("last_modified", Filter.range none none true true)]
      [("title", RequestedOrder.ascending)] ⟨some []⟩ =
    get_rows ⟨"https://api.govinfo.gov", "k", "collections", "bills",
        "2023-02-28T20:18:10Z", some "2023-03-01T20:18:10Z", "0", "1"⟩
      [] [] ⟨some []⟩ :=
  (c6_bounds_order_invariant _ _ [] _ [] ⟨some []⟩ rfl).1

/-- A row in the trace of the generator loop comes from the record at the
same position, mapped by the dictionary literal. -/
lemma runRows_get_mapRecord (recs : List Record) (i : Nat) (row : Row)
    (h : (runRows recs).1[i]? = some row) :
    ∃ r, recs[i]? = some r ∧ mapRecord r = Except.ok row := by
  induction recs generalizing i with
  | nil => simp [runRows] at h
  | cons a as ih =>
    rw [runRows] at h
    cases hma : mapRecord a with
    | error e => rw [hma] at h; simp at h
    | ok r0 =>
      rw [hma] at h
      cases i with
      | zero =>
        simp at h
        subst h
        exact ⟨a, by simp, hma⟩
      | succ n =>
        simp at h
        obtain ⟨r, hr, hmr⟩ := ih n h
        exact ⟨r, by simpa using hr, hmr⟩

/-- Field equations of a successfully mapped record. -/
lemma mapRecord_ok_fields (r : Record) (row : Row)
    (h : mapRecord r = Except.ok row) :
    row.package_id = r.packageId ∧
    strptimeZ r.lastModified = some row.last_modified ∧
    row.package_link = r.packageLink ∧
    row.doc_class = r.docClass ∧
    row.title = r.title ∧
    pyInt r.congress = some row.congress ∧
    row.date_issued = r.dateIssued := by
  unfold mapRecord at h
  cases hs : strptimeZ r.lastModified with
  | none => rw [hs] at h; simp at h
  | some dt =>
    rw [hs] at h
    cases hc : pyInt r.congress with
    | none => rw [hc] at h; simp at h
    | some c =>
      rw [hc] at h
      injection h with h2
      subst h2
      exact ⟨rfl, by simp [hs], rfl, rfl, rfl, by simp [hc], rfl⟩

/-- C8: every row emitted for a fetched response copies `packageId`,
`packageLink`, `docClass` and `title`, carries the `strptime` of
`lastModified`, the integer coercion of `congress`, and `dateIssued`
unmodified as a string. -/
theorem c8_row_field_mapping (payload : Payload) (i : Nat) (row : Row)
    (h : (fetchRows payload).1[i]? = some row) :
    ∃ recs r, payload.packages = some recs ∧ recs[i]? = some r ∧
      row.package_id = r.packageId ∧
      strptimeZ r.lastModified = some row.last_modified ∧
      row.package_link = r.packageLink ∧
      row.doc_class = r.docClass ∧
      row.title = r.title ∧
      pyInt r.congress = some row.congress ∧
      row.date_issued = r.dateIssued := by
  obtain ⟨packs⟩ := payload
  cases packs with
  | none => simp [fetchRows] at h
  | some recs =>
    simp only [fetchRows] at h
    obtain ⟨r, hr, hmr⟩ := runRows_get_mapRecord recs i row h
    exact ⟨recs, r, rfl, hr, mapRecord_ok_fields r row hmr⟩

/-- Witness for C8 at the fixture record of the test suite. -/
theorem c8_witness :
    ∃ recs r,
      (Payload.mk (some [⟨"BILLS-118hr796ih", "2023-03-01T10:29:21Z",
        "https://api.govinfo.gov/packages/BILLS-118hr796ih/summary", "hr",
        "Supply Chain Mapping and Monitoring Act", "118", "2023-02-02"⟩])).packages =
          some recs ∧
      recs[0]? = some r ∧
      (Row.mk "BILLS-118hr796ih" ⟨2023, 3, 1, 10, 29, 21⟩
        "https://api.govinfo.gov/packages/BILLS-118hr796ih/summary" "hr"
        "Supply Chain Mapping and Monitoring Act" 118 "2023-02-02").package_id = r.packageId ∧
      strptimeZ r.lastModified = some (Row.mk "BILLS-118hr796ih" ⟨2023, 3, 1, 10, 29, 21⟩
        "https://api.govinfo.gov/packages/BILLS-118hr796ih/summary" "hr"
        "Supply Chain Mapping and Monitoring Act" 118 "2023-02-02").last_modified ∧
      (Row.mk "BILLS-118hr796ih" ⟨2023, 3, 1, 10, 29, 21⟩
        "https://api.govinfo.gov/packages/BILLS-118hr796ih/summary" "hr"
        "Supply Chain Mapping and Monitoring Act" 118 "2023-02-02").package_link = r.packageLink ∧
      (Row.mk "BILLS-118hr796ih" ⟨2023, 3, 1, 10, 29, 21⟩
        "https://api.govinfo.gov/packages/BILLS-118hr796ih/summary" "hr"
        "Supply Chain Mapping and Monitoring Act" 118 "2023-02-02").doc_class = r.docClass ∧
      (Row.mk "BILLS-118hr796ih" ⟨2023, 3, 1, 10, 29, 21⟩
        "https://api.govinfo.gov/packages/BILLS-118hr796ih/summary" "hr"
        "Supply Chain Mapping and Monitoring Act" 118 "2023-02-02").title = r.title ∧
      pyInt r.congress = some (Row.mk "BILLS-118hr796ih" ⟨2023, 3, 1, 10, 29, 21⟩
        "https://api.govinfo.gov/packages/BILLS-118hr796ih/summary" "hr"
        "Supply Chain Mapping and Monitoring Act" 118 "2023-02-02").congress ∧
      (Row.mk "BILLS-118hr796ih" ⟨2023, 3, 1, 10, 29, 21⟩
        "https://api.govinfo.gov/packages/BILLS-118hr796ih/summary" "hr"
        "Supply Chain Mapping and Monitoring Act" 118 "2023-02-02").date_issued = r.dateIssued :=
  c8_row_field_mapping
    (Payload.mk (some [⟨"BILLS-118hr796ih", "2023-03-01T10:29:21Z",
      "https://api.govinfo.gov/packages/BILLS-118hr796ih/summary", "hr",
      "Supply Chain Mapping and Monitoring Act", "118", "2023-02-02"⟩])) 0
    (Row.mk "BILLS-118hr796ih" ⟨2023, 3, 1, 10, 29, 21⟩
      "https://api.govinfo.gov/packages/BILLS-118hr796ih/summary" "hr"
      "Supply Chain Mapping and Monitoring Act" 118 "2023-02-02") (by decide)

/-- C9: the fetch in `get_rows` is issued through the module-level plain
transport, not the cached session constructed at instantiation. -/
theorem c9_transport_bug :
    ∃ req rest, get_rows ⟨"https://api.govinfo.gov", "k", "collections", "bills",
        "2023-02-28T20:18:10Z", none, "0", "10"⟩ [] [] ⟨some []⟩ =
      Except.ok (req, rest) ∧
      req.transport = Transport.plainRequests ∧
      Transport.plainRequests ≠ Transport.cachedSession := by
  refine ⟨_, _, rfl, rfl, by decide⟩

end GovInfo
